import Mathlib

/-!
Shallow embedding of the cloud / cloud-shadow masking core of
`cloud-masking-sentinel2.ipynb` (functions `rescale`, `sentinelCloudScore`,
`ESAcloudMask`, `shadowMask` with its inner `potentialShadow`, and
`darkPixels`), together with theorems settling the specification claims.

Rasters are modelled as maps from integer pixel coordinates to values; a
pixel value is `Option ℚ`, where `none` is the defined not-a-number /
no-data sentinel of the raster substrate.  The raster substrate itself
(the `ee` engine) is not part of this repository; its elementwise
operations are modelled from the spec where noted.
-/

namespace S2

/-- Pixel coordinate on the (conceptually unbounded) raster grid. -/
abbrev Pix : Type := ℤ × ℤ

/-- A single-band raster: per pixel either a rational reflectance value or
the not-a-number / no-data sentinel (`none`). -/
abbrev Band : Type := Pix → Option ℚ

/-- A boolean raster (a decided mask). -/
abbrev BMask : Type := Pix → Bool

/-- A multi-band raster, with the scene metadata read by the shadow
projector: solar azimuth and zenith (degrees, properties `solar_azimuth`
and `solar_zenith`) and the nominal ground scale in meters
(`projection().nominalScale()`). -/
structure Image where
  bandVal : String → Band
  solarAzimuth : ℚ
  solarZenith : ℚ
  nominalScale : ℚ

/-- Band selection, `img.select(name)`. -/
def Image.select (img : Image) (b : String) : Band := img.bandVal b

/-- Modelled from the spec: the substrate's elementwise division
(`ee.Image.divide` is not part of this repository); a zero denominator
yields the defined not-a-number sentinel, which propagates (spec section 7). -/
def divVal (a b : ℚ) : Option ℚ := if b = 0 then none else some (a / b)

/-- Sequencing of two sentinel-propagating pixel values: the sentinel on
either side propagates to the result. -/
def lift2 (f : ℚ → ℚ → Option ℚ) (x y : Option ℚ) : Option ℚ :=
  x.bind fun a => y.bind fun b => f a b

/-- Elementwise sum of two bands, `img.add(other)`; the sentinel propagates. -/
def badd (x y : Band) : Band := fun p => lift2 (fun a b => some (a + b)) (x p) (y p)

/-- Elementwise minimum of two bands, `img.min(other)`; the sentinel propagates. -/
def bmin (x y : Band) : Band := fun p => lift2 (fun a b => some (min a b)) (x p) (y p)

/-- The constant raster, `ee.Image(q)`. -/
def constB (q : ℚ) : Band := fun _ => some q

/-- `minAggregate` of the spec: per-pixel minimum across a first raster and
a list of further rasters. -/
def minAggregate (first : Band) (rest : List Band) : Band :=
  rest.foldl bmin first

/-- `rescale` from the source: linear stretch of the image between two
threshold values, `img.subtract(thresholds[0]).divide(thresholds[1] - thresholds[0])`.
No validation of the thresholds is performed by the source. -/
def rescale (img : Band) (t0 t1 : ℚ) : Band :=
  fun p => (img p).bind fun v => divVal (v - t0) (t1 - t0)

/-- Modelled from the spec: the substrate's `normalizedDifference([bA, bB])`,
per pixel (A - B) / (A + B), with the zero-denominator sentinel (spec
sections 4.1 and 7). -/
def normalizedDifference (img : Image) (bA bB : String) : Band :=
  fun p => lift2 (fun a b => divVal (a - b) (a + b)) (img.bandVal bA p) (img.bandVal bB p)

/-- Modelled from the spec: the substrate's threshold comparison `img.gt(t)`;
a sentinel pixel fails the test, i.e. is treated false (spec section 7). -/
def gtB (img : Band) (t : ℚ) : BMask := fun p =>
  match img p with
  | none => false
  | some v => decide (t < v)

/-- The six rescaled spectral indicators of `sentinelCloudScore`, in source
order: blue over [0.1, 0.5]; aerosol over [0.1, 0.3]; aerosol + cirrus over
[0.15, 0.2]; red + green + blue over [0.2, 0.8]; normalizedDifference of
red4 and swir1 over [-0.1, 0.1]; normalizedDifference of green and swir1
over the inverted interval [0.8, 0.6]. -/
def scoreIndicators (img : Image) : List Band :=
  [rescale (img.select ("blue")) (1/10) (1/2),
   rescale (img.select ("aerosol")) (1/10) (3/10),
   rescale (badd (img.select ("aerosol")) (img.select ("cirrus"))) (3/20) (1/5),
   rescale (badd (badd (img.select ("red")) (img.select ("green"))) (img.select ("blue"))) (1/5) (4/5),
   rescale (normalizedDifference img ("red4") ("swir1")) (-(1/10)) (1/10),
   rescale (normalizedDifference img ("green") ("swir1")) (4/5) (3/5)]

/-- The `cloudScore` band computed by `sentinelCloudScore` in the source:
`score = ee.Image(1)` followed by six successive `score = score.min(...)`
steps, one per rescaled indicator (written here as the resulting left-nested
minimum chain). -/
def sentinelCloudScore (img : Image) : Band :=
  bmin (bmin (bmin (bmin (bmin (bmin (constB 1)
    (rescale (img.select ("blue")) (1/10) (1/2)))
    (rescale (img.select ("aerosol")) (1/10) (3/10)))
    (rescale (badd (img.select ("aerosol")) (img.select ("cirrus"))) (3/20) (1/5)))
    (rescale (badd (badd (img.select ("red")) (img.select ("green"))) (img.select ("blue"))) (1/5) (4/5)))
    (rescale (normalizedDifference img ("red4") ("swir1")) (-(1/10)) (1/10)))
    (rescale (normalizedDifference img ("green") ("swir1")) (4/5) (3/5))

/-- The snow-exclusion indicator: the last term of the minimum chain in
`sentinelCloudScore`, `rescale(ndsi, [0.8, 0.6])` with
`ndsi = img.normalizedDifference(['green', 'swir1'])`. -/
def snowIndicator (img : Image) : Band :=
  rescale (normalizedDifference img ("green") ("swir1")) (4/5) (3/5)

/-- The per-pixel minimum of exactly the six listed rescaled indicators and
nothing else (the aggregation described by claim C3, without the constant
raster 1 that the source starts from). -/
def claimedPureMinScore (img : Image) : Band :=
  minAggregate (rescale (img.select ("blue")) (1/10) (1/2))
    [rescale (img.select ("aerosol")) (1/10) (3/10),
     rescale (badd (img.select ("aerosol")) (img.select ("cirrus"))) (3/20) (1/5),
     rescale (badd (badd (img.select ("red")) (img.select ("green"))) (img.select ("blue"))) (1/5) (4/5),
     rescale (normalizedDifference img ("red4") ("swir1")) (-(1/10)) (1/10),
     rescale (normalizedDifference img ("green") ("swir1")) (4/5) (3/5)]

/-- `cloudBitMask = int(2**10)` from `ESAcloudMask`: bit 10 of QA60 is
opaque cloud. -/
def cloudBitMask : ℕ := 2 ^ 10

/-- `cirrusBitMask = int(2**11)` from `ESAcloudMask`: bit 11 of QA60 is
cirrus. -/
def cirrusBitMask : ℕ := 2 ^ 11

/-- The per-pixel `clear` test of `ESAcloudMask`:
`qa.bitwiseAnd(cloudBitMask).eq(0).And(qa.bitwiseAnd(cirrusBitMask).eq(0))`. -/
def clearQA60 (v : ℕ) : Bool :=
  (v &&& cloudBitMask == 0) && (v &&& cirrusBitMask == 0)

/-- The per-pixel value of the `ESA_clouds` band of `ESAcloudMask`:
`cloud = clear.Not()`. -/
def ESAclouds (v : ℕ) : Bool := ! clearQA60 v

/-- `azimuth` as computed inside `shadowMask` (radians):
`solar_azimuth * pi / 180 + 0.5 * pi`. -/
noncomputable def shadowAzimuth (azDeg : ℝ) : ℝ :=
  azDeg * Real.pi / 180 + 0.5 * Real.pi

/-- `zenith` as computed inside `shadowMask` (radians):
`0.5 * pi - solar_zenith * pi / 180`. -/
noncomputable def shadowZenith (zenDeg : ℝ) : ℝ :=
  0.5 * Real.pi - zenDeg * Real.pi / 180

/-- The integer pixel displacement computed by `potentialShadow` for one
cloud height: the shadow vector length is `tan(zenith) * cloudHeight` and
the components are `round(cos(azimuth) * shadowVector / nominalScale)` and
`round(sin(azimuth) * shadowVector / nominalScale)`. -/
noncomputable def shadowShift (azDeg zenDeg scale h : ℝ) : ℤ × ℤ :=
  (round (Real.cos (shadowAzimuth azDeg) * (Real.tan (shadowZenith zenDeg) * h) / scale),
   round (Real.sin (shadowAzimuth azDeg) * (Real.tan (shadowZenith zenDeg) * h) / scale))

/-- Modelled from the spec (design note, section 9): the per-height
`changeProj` translation of the binary cloud mask is an explicit integer
pixel offset of the boolean raster. -/
def translateMask (m : BMask) (d : ℤ × ℤ) : BMask :=
  fun p => m (p.1 - d.1, p.2 - d.2)

/-- `cloudHeights = ee.List.sequence(500, 4000, 500)` (meters). -/
def cloudHeights : List ℕ := [500, 1000, 1500, 2000, 2500, 3000, 3500, 4000]

/-- The binarized cloud mask selected inside `shadowMask`:
`img.select(cloudMaskType).gt(0.5)`. -/
def cloudMaskBin (img : Image) (cloudMaskType : String) : BMask :=
  gtB (img.select cloudMaskType) (1/2)

/-- The inner `potentialShadow(cloudHeight)` of `shadowMask`: the binary
cloud mask translated by the per-height shadow displacement. -/
noncomputable def potentialShadow (img : Image) (cloudMaskType : String) (h : ℕ) : BMask :=
  translateMask (cloudMaskBin img cloudMaskType)
    (shadowShift ((img.solarAzimuth : ℝ)) ((img.solarZenith : ℝ))
      ((img.nominalScale : ℝ)) ((h : ℝ)))

/-- `ee.ImageCollection.fromImages(cloudHeights.map(potentialShadow)).max()`:
the per-pixel maximum (boolean OR) over the per-height translated masks. -/
noncomputable def potentialShadowMax (img : Image) (cloudMaskType : String) : BMask :=
  fun p => (cloudHeights.map fun h => potentialShadow img cloudMaskType h p).any fun b => b

/-- `darkPixels` from the source:
`toa.normalizedDifference(['green', 'swir2']).gt(0.25)`.  Note that the
source reads the notebook global `toa` here, not the function argument
`img`; that global is the explicit first argument of this definition. -/
def darkPixels (toa : Image) : BMask :=
  gtB (normalizedDifference toa ("green") ("swir2")) (1/4)

/-- The `shadows` band produced by `shadowMask`:
`potentialShadow.And(cloudMask.Not()).And(darkPixels)`.  The notebook
global `toa` read by `darkPixels` is passed explicitly as `toa`. -/
noncomputable def shadowsBand (toa img : Image) (cloudMaskType : String) : BMask :=
  fun p =>
    (potentialShadowMax img cloudMaskType p && ! cloudMaskBin img cloudMaskType p)
      && darkPixels toa p

/-- A raster whose cloud indicator band is above the 0.5 threshold exactly
at the origin pixel (every band holds 1 at the origin and 0 elsewhere);
solar azimuth 0 degrees, solar zenith 45 degrees, ground scale 10 m. -/
def imgOneCloud : Image where
  bandVal := fun _ p => some (if p = ((0:ℤ), (0:ℤ)) then 1 else 0)
  solarAzimuth := 0
  solarZenith := 45
  nominalScale := 10

/-- A globally dark scene raster: green 1/2 everywhere, every other band 0,
so the green/swir2 normalized difference is 1 everywhere. -/
def toaDark : Image where
  bandVal := fun b _ => some (if b = "green" then 1/2 else 0)
  solarAzimuth := 0
  solarZenith := 45
  nominalScale := 10

/-- As `toaDark` but with a different blue band; its green and swir2 bands
agree with those of `toaDark`. -/
def toaDark2 : Image where
  bandVal := fun b _ => some (if b = "green" then 1/2 else if b = "blue" then 1 else 0)
  solarAzimuth := 0
  solarZenith := 45
  nominalScale := 10

/-- A globally bright scene raster: swir2 1/2 everywhere, every other band
0, so the green/swir2 normalized difference is -1 everywhere (not dark). -/
def toaBright : Image where
  bandVal := fun b _ => some (if b = "swir2" then 1/2 else 0)
  solarAzimuth := 0
  solarZenith := 45
  nominalScale := 10

/-- A raster with blue 0, aerosol 1/5, red 3/10, green 3/10, red4 1/2,
swir1 1/10 and 0 elsewhere, at every pixel; its cloud score is -1/4. -/
def imgNegScore : Image where
  bandVal := fun b _ =>
    some (if b = "aerosol" then 1/5 else if b = "red" then 3/10
      else if b = "green" then 3/10 else if b = "red4" then 1/2
      else if b = "swir1" then 1/10 else 0)
  solarAzimuth := 0
  solarZenith := 45
  nominalScale := 10

/-- A uniformly very bright raster (every band 9/10 except swir1 = 1/2):
each of the six rescaled indicators exceeds 1 at every pixel. -/
def imgAllBright : Image where
  bandVal := fun b _ => some (if b = "swir1" then 1/2 else 9/10)
  solarAzimuth := 0
  solarZenith := 45
  nominalScale := 10

/-- A raster whose green/swir1 normalized difference is 1/2 at the origin
pixel and -1/2 elsewhere. -/
def imgSnowTest : Image where
  bandVal := fun b p =>
    some (if b = "green" then (if p = ((0:ℤ), (0:ℤ)) then 3/10 else 1/10)
      else if b = "swir1" then (if p = ((0:ℤ), (0:ℤ)) then 1/10 else 3/10)
      else 0)
  solarAzimuth := 0
  solarZenith := 45
  nominalScale := 10

/-- A raster with every band 0 at every pixel: every normalized difference
has a zero denominator. -/
def imgAllZero : Image where
  bandVal := fun _ _ => some 0
  solarAzimuth := 0
  solarZenith := 45
  nominalScale := 10

/-- A cloud mask with a single true pixel at the origin. -/
def originMask : BMask := fun p => decide (p = ((0:ℤ), (0:ℤ)))

end S2

namespace S2

/-! ### Helper lemmas -/

lemma bmin_some_le {x y : Band} {p : Pix} {q : ℚ} (h : bmin x y p = some q) :
    ∃ a, x p = some a ∧ q ≤ a := by
  unfold bmin lift2 at h
  cases hx : x p with
  | none => rw [hx] at h; simp at h
  | some a =>
    cases hy : y p with
    | none => rw [hx, hy] at h; simp at h
    | some b =>
      rw [hx, hy] at h
      simp at h
      exact ⟨a, rfl, by rw [← h]; exact min_le_left a b⟩

lemma bmin_none_right (x y : Band) (p : Pix) (hy : y p = none) : bmin x y p = none := by
  unfold bmin lift2
  rw [hy]
  cases x p <;> rfl

/-- Whenever `sentinelCloudScore` produces a value at a pixel, that value is
at most 1: the minimum chain starts from the constant raster 1. -/
lemma score_le_one (img : Image) (p : Pix) (q : ℚ)
    (h : sentinelCloudScore img p = some q) : q ≤ 1 := by
  unfold sentinelCloudScore at h
  obtain ⟨a6, h6, le6⟩ := bmin_some_le h
  obtain ⟨a5, h5, le5⟩ := bmin_some_le h6
  obtain ⟨a4, h4, le4⟩ := bmin_some_le h5
  obtain ⟨a3, h3, le3⟩ := bmin_some_le h4
  obtain ⟨a2, h2, le2⟩ := bmin_some_le h3
  obtain ⟨a1, h1, le1⟩ := bmin_some_le h2
  have ha1 : a1 = 1 := by
    unfold constB at h1
    exact (Option.some_inj.mp h1).symm
  calc q ≤ a6 := le6
    _ ≤ a5 := le5
    _ ≤ a4 := le4
    _ ≤ a3 := le3
    _ ≤ a2 := le2
    _ ≤ a1 := le1
    _ = 1 := ha1

lemma negscore_eval : sentinelCloudScore imgNegScore ((0:ℤ), (0:ℤ)) = some (-(1/4)) := by
  simp [sentinelCloudScore, bmin, badd, lift2, rescale, divVal, constB,
    normalizedDifference, Image.select, imgNegScore]
  norm_num [min_def]

lemma allbright_score_eval : sentinelCloudScore imgAllBright ((0:ℤ), (0:ℤ)) = some 1 := by
  simp [sentinelCloudScore, bmin, badd, lift2, rescale, divVal, constB,
    normalizedDifference, Image.select, imgAllBright]
  norm_num [min_def]

lemma allbright_puremin_eval :
    claimedPureMinScore imgAllBright ((0:ℤ), (0:ℤ)) = some (27/14) := by
  simp [claimedPureMinScore, minAggregate, bmin, badd, lift2, rescale, divVal,
    constB, normalizedDifference, Image.select, imgAllBright]
  norm_num [min_def]

lemma shadowAzimuth_zero : shadowAzimuth 0 = Real.pi / 2 := by
  unfold shadowAzimuth
  ring

lemma shadowZenith_fortyfive : shadowZenith 45 = Real.pi / 4 := by
  unfold shadowZenith
  ring

/-- With solar azimuth 0 degrees, zenith 45 degrees and scale 10 m, the
per-height displacement is purely along y: cos(pi/2) = 0, sin(pi/2) = 1,
tan(pi/4) = 1. -/
lemma shadowShift_vertical (h : ℝ) : shadowShift 0 45 10 h = (0, round (h / 10)) := by
  unfold shadowShift
  rw [shadowAzimuth_zero, shadowZenith_fortyfive, Real.tan_pi_div_four,
    Real.cos_pi_div_two, Real.sin_pi_div_two]
  norm_num

lemma shadowShift_1000 : shadowShift 0 45 10 1000 = ((0:ℤ), (100:ℤ)) := by
  rw [shadowShift_vertical]
  rw [show ((1000:ℝ) / 10) = ((100:ℕ) : ℝ) by norm_num, round_natCast]
  norm_num

lemma shadowShift_500 : shadowShift 0 45 10 500 = ((0:ℤ), (50:ℤ)) := by
  rw [shadowShift_vertical]
  rw [show ((500:ℝ) / 10) = ((50:ℕ) : ℝ) by norm_num, round_natCast]
  norm_num

lemma potShadow_500_eval :
    potentialShadow imgOneCloud ("cloudScore") 500 ((0:ℤ), (50:ℤ)) = true := by
  unfold potentialShadow
  have hcast : shadowShift ((imgOneCloud.solarAzimuth : ℝ)) ((imgOneCloud.solarZenith : ℝ))
      ((imgOneCloud.nominalScale : ℝ)) ((500:ℕ) : ℝ) = ((0:ℤ), (50:ℤ)) := by
    have h1 : ((imgOneCloud.solarAzimuth : ℚ) : ℝ) = 0 := by norm_num [imgOneCloud]
    have h2 : ((imgOneCloud.solarZenith : ℚ) : ℝ) = 45 := by norm_num [imgOneCloud]
    have h3 : ((imgOneCloud.nominalScale : ℚ) : ℝ) = 10 := by norm_num [imgOneCloud]
    have h4 : (((500:ℕ)) : ℝ) = 500 := by norm_num
    rw [h1, h2, h3, h4, shadowShift_500]
  rw [hcast]
  simp [translateMask, cloudMaskBin, gtB, Image.select, imgOneCloud]
  norm_num

lemma potShadowMax_eval :
    potentialShadowMax imgOneCloud ("cloudScore") ((0:ℤ), (50:ℤ)) = true := by
  unfold potentialShadowMax cloudHeights
  simp [potShadow_500_eval]

lemma cloudMaskBin_off_eval :
    cloudMaskBin imgOneCloud ("cloudScore") ((0:ℤ), (50:ℤ)) = false := by
  simp [cloudMaskBin, gtB, Image.select, imgOneCloud]

lemma darkPixels_toaDark_eval : darkPixels toaDark ((0:ℤ), (50:ℤ)) = true := by
  simp [darkPixels, gtB, normalizedDifference, lift2, divVal, toaDark]
  norm_num

lemma darkPixels_toaBright_eval : darkPixels toaBright ((0:ℤ), (50:ℤ)) = false := by
  simp [darkPixels, gtB, normalizedDifference, lift2, divVal, toaBright]
  norm_num

/-- At the example scene, the shadow of the single origin cloud is detected
at pixel (0, 50) when the notebook global raster is dark there. -/
lemma shadows_toaDark_eval :
    shadowsBand toaDark imgOneCloud ("cloudScore") ((0:ℤ), (50:ℤ)) = true := by
  unfold shadowsBand
  rw [potShadowMax_eval, cloudMaskBin_off_eval, darkPixels_toaDark_eval]
  rfl

lemma shadows_toaBright_eval :
    shadowsBand toaBright imgOneCloud ("cloudScore") ((0:ℤ), (50:ℤ)) = false := by
  unfold shadowsBand
  rw [darkPixels_toaBright_eval, Bool.and_false]

end S2

namespace S2

/-! ### Claim theorems -/

/-- C1: for every integer QA60 value, the `ESA_clouds` flag of
`ESAcloudMask` is true iff bit 10 or bit 11 is set, and the `clear` test
holds iff both bits are zero; over all four combinations of the two bits
the flag is false exactly when both are zero. -/
theorem esa_cloud_flag_matches_bits (v : ℕ) :
    ESAclouds v = (v.testBit 10 || v.testBit 11) ∧
    clearQA60 v = (! v.testBit 10 && ! v.testBit 11) := by
  have h10 : (v &&& cloudBitMask == 0) = ! v.testBit 10 := by
    unfold cloudBitMask
    rw [Nat.and_two_pow]
    cases h : v.testBit 10 <;> simp
  have h11 : (v &&& cirrusBitMask == 0) = ! v.testBit 11 := by
    unfold cirrusBitMask
    rw [Nat.and_two_pow]
    cases h : v.testBit 11 <;> simp
  constructor
  · unfold ESAclouds clearQA60
    rw [h10, h11]
    cases v.testBit 10 <;> cases v.testBit 11 <;> rfl
  · unfold clearQA60
    rw [h10, h11]

/-- C2 (amended): wherever the combined cloud score is defined it is at
most 1, but the lower bound 0 claimed by the spec does not hold: the
rescaled indicators are not clamped below, so the score can be negative. -/
theorem cloud_score_at_most_one (img : Image) (p : Pix) (q : ℚ)
    (h : sentinelCloudScore img p = some q) : q ≤ 1 :=
  score_le_one img p q h

/-- Witness for `cloud_score_at_most_one` at a concrete raster and pixel. -/
theorem cloud_score_at_most_one_check :
    sentinelCloudScore imgAllBright ((0:ℤ), (0:ℤ)) = some 1 ∧ (1:ℚ) ≤ 1 :=
  ⟨allbright_score_eval,
   cloud_score_at_most_one imgAllBright ((0:ℤ), (0:ℤ)) 1 allbright_score_eval⟩

/-- C2 counterexample: the combined cloud score does not always lie in
[0, 1]: at a raster with blue 0 (and the other bands as in `imgNegScore`)
the score is -1/4. -/
theorem cloud_score_not_unit_interval :
    ¬ ∀ (img : Image) (p : Pix) (q : ℚ),
        sentinelCloudScore img p = some q → 0 ≤ q ∧ q ≤ 1 := by
  intro hall
  have h := (hall imgNegScore ((0:ℤ), (0:ℤ)) (-(1/4)) negscore_eval).1
  norm_num at h

/-- C3 (amended): the combined cloud score equals the minimum-aggregation
of the constant raster 1 together with the six listed rescaled indicators
(the source starts the minimum chain from `ee.Image(1)`), and nothing
else. -/
theorem cloud_score_is_min_with_one (img : Image) (p : Pix) :
    sentinelCloudScore img p = minAggregate (constB 1) (scoreIndicators img) p := rfl

/-- C3 counterexample: at a uniformly very bright raster every indicator
exceeds 1, so the source's score (capped by the initial constant raster 1)
is 1 while the per-pixel minimum of exactly the six listed indicators is
27/14: the score is not the minimum of the indicators alone. -/
theorem cloud_score_differs_from_pure_min :
    sentinelCloudScore imgAllBright ((0:ℤ), (0:ℤ)) = some 1 ∧
    claimedPureMinScore imgAllBright ((0:ℤ), (0:ℤ)) = some (27/14) ∧
    sentinelCloudScore imgAllBright ((0:ℤ), (0:ℤ)) ≠
      claimedPureMinScore imgAllBright ((0:ℤ), (0:ℤ)) := by
  refine ⟨allbright_score_eval, allbright_puremin_eval, ?_⟩
  rw [allbright_score_eval, allbright_puremin_eval]
  intro hcontra
  have h := Option.some_inj.mp hcontra
  norm_num at h

/-- C4: with solar azimuth 0 degrees, solar zenith 45 degrees, ground
scale 10 m and cloud height 1000 m, the shadow displacement is exactly
(0, 100), and the translated copy of a single-origin-pixel cloud mask is
true exactly at pixel (0, 100). -/
theorem shadow_projector_test_displacement :
    shadowShift 0 45 10 1000 = ((0:ℤ), (100:ℤ)) ∧
    ∀ p : Pix, translateMask originMask (shadowShift 0 45 10 1000) p =
      decide (p = ((0:ℤ), (100:ℤ))) := by
  refine ⟨shadowShift_1000, ?_⟩
  intro p
  rw [shadowShift_1000]
  rcases p with ⟨x, y⟩
  simp only [translateMask, originMask, decide_eq_decide, Prod.mk.injEq]
  omega

/-- C5 (amended): with the notebook global raster passed explicitly, the
shadows band is a pure function of the selected cloud indicator band, the
raster's solar azimuth and zenith metadata, the ground scale, and the
green and swir2 bands of the global raster `toa` (the darkness test reads
the global, not the `img` argument). -/
theorem shadows_function_of_stated_inputs (toa toa2 img img2 : Image) (t : String)
    (hg : toa.bandVal ("green") = toa2.bandVal ("green"))
    (hs : toa.bandVal ("swir2") = toa2.bandVal ("swir2"))
    (hb : img.bandVal t = img2.bandVal t)
    (ha : img.solarAzimuth = img2.solarAzimuth)
    (hz : img.solarZenith = img2.solarZenith)
    (hn : img.nominalScale = img2.nominalScale) :
    shadowsBand toa img t = shadowsBand toa2 img2 t := by
  funext p
  unfold shadowsBand potentialShadowMax potentialShadow cloudMaskBin darkPixels
    normalizedDifference translateMask Image.select
  simp only [hg, hs, hb, ha, hz, hn]

/-- Witness for `shadows_function_of_stated_inputs` at concrete rasters
whose green and swir2 bands agree but whose blue bands differ. -/
theorem shadows_function_of_stated_inputs_check :
    shadowsBand toaDark imgOneCloud ("cloudScore") =
      shadowsBand toaDark2 imgOneCloud ("cloudScore") :=
  shadows_function_of_stated_inputs toaDark toaDark2 imgOneCloud imgOneCloud
    ("cloudScore") rfl rfl rfl rfl rfl rfl

/-- C5 counterexample: two invocations of `shadowMask` with identical
argument values (the same `img` and the same `cloudMaskType`) produce
different shadows bands at pixel (0, 50) when the notebook global `toa`
differs: the darkness test reads the global raster, not the argument. -/
theorem shadows_depend_on_global :
    shadowsBand toaDark imgOneCloud ("cloudScore") ((0:ℤ), (50:ℤ)) = true ∧
    shadowsBand toaBright imgOneCloud ("cloudScore") ((0:ℤ), (50:ℤ)) = false :=
  ⟨shadows_toaDark_eval, shadows_toaBright_eval⟩

/-- C6: a pixel flagged in the shadows band is never flagged in the
binarized cloud mask the shadows were computed from. -/
theorem shadows_never_cloud (toa img : Image) (t : String) (p : Pix)
    (h : shadowsBand toa img t p = true) : cloudMaskBin img t p = false := by
  unfold shadowsBand at h
  simp only [Bool.and_eq_true] at h
  rcases h with ⟨⟨_, h2⟩, _⟩
  simpa using h2

/-- Witness for `shadows_never_cloud` at a concrete scene with a detected
shadow pixel. -/
theorem shadows_never_cloud_check :
    shadowsBand toaDark imgOneCloud ("cloudScore") ((0:ℤ), (50:ℤ)) = true ∧
    cloudMaskBin imgOneCloud ("cloudScore") ((0:ℤ), (50:ℤ)) = false :=
  ⟨shadows_toaDark_eval,
   shadows_never_cloud toaDark imgOneCloud ("cloudScore") ((0:ℤ), (50:ℤ))
     shadows_toaDark_eval⟩

/-- C7: the snow-exclusion indicator equals (ndsi - 0.8) / (0.6 - 0.8)
per pixel, and it is strictly antitone in ndsi: for any two pixels, a
strictly higher green/swir1 normalized difference gives a strictly lower
indicator value. -/
theorem snow_indicator_antitone (img : Image) (p q : Pix) (a b : ℚ)
    (hp : normalizedDifference img ("green") ("swir1") p = some a)
    (hq : normalizedDifference img ("green") ("swir1") q = some b)
    (hab : a < b) :
    snowIndicator img p = some ((a - 4/5) / (3/5 - 4/5)) ∧
    snowIndicator img q = some ((b - 4/5) / (3/5 - 4/5)) ∧
    (b - 4/5) / (3/5 - 4/5) < (a - 4/5) / (3/5 - 4/5) := by
  have heval : ∀ (r : Pix) (c : ℚ),
      normalizedDifference img ("green") ("swir1") r = some c →
      snowIndicator img r = some ((c - 4/5) / (3/5 - 4/5)) := by
    intro r c hr
    unfold snowIndicator rescale
    rw [hr]
    show divVal (c - 4/5) (3/5 - 4/5) = some ((c - 4/5) / (3/5 - 4/5))
    unfold divVal
    rw [if_neg (by norm_num)]
  have key : ∀ c : ℚ, (c - 4/5) / (3/5 - 4/5) = 4 - 5 * c := by
    intro c
    ring
  refine ⟨heval p a hp, heval q b hq, ?_⟩
  rw [key a, key b]
  linarith

/-- Witness for `snow_indicator_antitone` at a raster whose ndsi is 1/2 at
the origin and -1/2 at pixel (1, 0). -/
theorem snow_indicator_antitone_check :
    snowIndicator imgSnowTest ((1:ℤ), (0:ℤ)) = some ((-(1/2) - 4/5) / (3/5 - 4/5)) ∧
    snowIndicator imgSnowTest ((0:ℤ), (0:ℤ)) = some ((1/2 - 4/5) / (3/5 - 4/5)) ∧
    ((1/2 : ℚ) - 4/5) / (3/5 - 4/5) < ((-(1/2) : ℚ) - 4/5) / (3/5 - 4/5) :=
  snow_indicator_antitone imgSnowTest ((1:ℤ), (0:ℤ)) ((0:ℤ), (0:ℤ)) (-(1/2)) (1/2)
    (by simp [normalizedDifference, lift2, divVal, imgSnowTest]; norm_num)
    (by simp [normalizedDifference, lift2, divVal, imgSnowTest]; norm_num)
    (by norm_num)

/-- C8: at a pixel where the denominator of a normalized difference (the
sum of the two bands) is zero, the operation returns the not-a-number
sentinel instead of failing, and every downstream threshold test treats
the pixel as false: it is neither dark (hence not shadow) nor above any
cloud-score threshold (hence not cloud). -/
theorem nd_zero_denominator_excluded (toa : Image) (p : Pix) (g s1 s2 : ℚ)
    (hg : toa.bandVal ("green") p = some g)
    (hs2 : toa.bandVal ("swir2") p = some s2)
    (hs1 : toa.bandVal ("swir1") p = some s1)
    (h2 : g + s2 = 0) (h1 : g + s1 = 0) :
    normalizedDifference toa ("green") ("swir2") p = none ∧
    (∀ t : ℚ, gtB (normalizedDifference toa ("green") ("swir2")) t p = false) ∧
    darkPixels toa p = false ∧
    (∀ (img : Image) (ty : String), shadowsBand toa img ty p = false) ∧
    sentinelCloudScore toa p = none ∧
    gtB (sentinelCloudScore toa) (1/2) p = false := by
  have hnd2 : normalizedDifference toa ("green") ("swir2") p = none := by
    unfold normalizedDifference lift2
    rw [hg, hs2]
    simp [divVal, h2]
  have hnd1 : normalizedDifference toa ("green") ("swir1") p = none := by
    unfold normalizedDifference lift2
    rw [hg, hs1]
    simp [divVal, h1]
  have hscore : sentinelCloudScore toa p = none := by
    unfold sentinelCloudScore
    apply bmin_none_right
    unfold rescale
    rw [hnd1]
    rfl
  have hdark : darkPixels toa p = false := by
    unfold darkPixels gtB
    rw [hnd2]
  refine ⟨hnd2, ?_, hdark, ?_, hscore, ?_⟩
  · intro t
    unfold gtB
    rw [hnd2]
  · intro img ty
    unfold shadowsBand
    rw [hdark, Bool.and_false]
  · unfold gtB
    rw [hscore]

/-- Witness for `nd_zero_denominator_excluded` at the all-zero raster. -/
theorem nd_zero_denominator_excluded_check :
    normalizedDifference imgAllZero ("green") ("swir2") ((0:ℤ), (0:ℤ)) = none ∧
    gtB (normalizedDifference imgAllZero ("green") ("swir2")) (1/4) ((0:ℤ), (0:ℤ)) = false ∧
    darkPixels imgAllZero ((0:ℤ), (0:ℤ)) = false ∧
    shadowsBand imgAllZero imgAllZero ("cloudScore") ((0:ℤ), (0:ℤ)) = false ∧
    sentinelCloudScore imgAllZero ((0:ℤ), (0:ℤ)) = none ∧
    gtB (sentinelCloudScore imgAllZero) (1/2) ((0:ℤ), (0:ℤ)) = false := by
  obtain ⟨a, b, c, d, e, f⟩ :=
    nd_zero_denominator_excluded imgAllZero ((0:ℤ), (0:ℤ)) 0 0 0 rfl rfl rfl
      (by norm_num) (by norm_num)
  exact ⟨a, b (1/4), c, d imgAllZero ("cloudScore"), e, f⟩

/-- C9 (amended): `rescale` called with equal thresholds does not surface
an InvalidParameter error: the source performs no validation, the division
executes, and every pixel becomes the not-a-number sentinel (which
downstream threshold tests treat as false). -/
theorem rescale_equal_thresholds_sentinel (b : Band) (t : ℚ) (p : Pix) :
    rescale b t t p = none := by
  unfold rescale divVal
  cases hb : b p <;> simp [hb]

/-- C9 counterexample: calling `rescale` with low = high = 0.3 on the blue
band raises no error at all; it silently yields the sentinel, which the
downstream threshold comparison then treats as false. -/
theorem rescale_equal_thresholds_no_error :
    rescale (imgNegScore.select ("blue")) (3/10) (3/10) ((0:ℤ), (0:ℤ)) = none ∧
    gtB (rescale (imgNegScore.select ("blue")) (3/10) (3/10)) 0 ((0:ℤ), (0:ℤ)) = false := by
  constructor
  · simp [rescale, divVal, Image.select, imgNegScore]
  · simp [gtB, rescale, divVal, Image.select, imgNegScore]

/-- C10: wherever defined, the combined cloud score is at most 1 (the
minimum chain starts from the constant raster 1), and no operation
enforces the lower bound 0: there is a raster and pixel with a strictly
negative score. -/
theorem cloud_score_bounded_above_not_below :
    (∀ (img : Image) (p : Pix) (q : ℚ), sentinelCloudScore img p = some q → q ≤ 1) ∧
    (∃ (img : Image) (p : Pix) (q : ℚ), sentinelCloudScore img p = some q ∧ q < 0) :=
  ⟨score_le_one, ⟨imgNegScore, ((0:ℤ), (0:ℤ)), -(1/4), negscore_eval, by norm_num⟩⟩

/-- Witness for `cloud_score_bounded_above_not_below` at a concrete raster
whose score is -1/4. -/
theorem cloud_score_bounded_above_not_below_check :
    sentinelCloudScore imgNegScore ((0:ℤ), (0:ℤ)) = some (-(1/4)) ∧ (-(1/4) : ℚ) ≤ 1 :=
  ⟨negscore_eval,
   cloud_score_bounded_above_not_below.1 imgNegScore ((0:ℤ), (0:ℤ)) (-(1/4)) negscore_eval⟩

end S2
